import Mathlib

set_option autoImplicit false

/-!
Shallow embedding of `custom_components/mysigen_battery/sensor.py`.

Modelling conventions:
- JSON numbers are modelled as exact rationals (ℚ).
- A JSON object is an association list `List (String × JVal)`; the Python
  `dict.get(key)` (default `None`) is `Dict.getOrNull`, which returns
  `JVal.null` both when the key is absent and when it is bound to null,
  exactly as Python collapses both to `None`.
- Each network request is summarised by its externally visible outcome
  (`FetchOutcome`): the request raised an exception (timeout, connection
  error, non-JSON body), returned a non-200 status, returned 200 with a
  non-zero application `code`, or fully succeeded with a decoded payload.
  An `Env` records the outcome each endpoint would produce during one
  `update()` cycle.
- Python exceptions inside the `try` block of `update()` are modelled with
  `Except`: `Except.error` carries the state mutated so far at the point
  the exception was raised (Python exceptions do not roll mutations back);
  the `except Exception` clause of `update()` is the match arm that turns
  that error back into a normal return.
- Python truthiness of the cached token and station id (`not self.access_token`,
  `not self.station_id`) is `truthyStr`: `None` and `""` are falsy.
-/

/-- A decoded JSON value as the readers consume it: either null (also standing
for an absent field after a `dict.get`) or a number. -/
inductive JVal where
  | null : JVal
  | num : ℚ → JVal
deriving DecidableEq

/-- A decoded JSON object: association list from field names to values. -/
abbrev Dict := List (String × JVal)

/-- Python `d.get(k)` with default `None`: absent key and null value collapse
to `JVal.null`. -/
def Dict.getOrNull (d : Dict) (k : String) : JVal :=
  match d.lookup k with
  | some v => v
  | none => JVal.null

/-- Python `v is not None`, as the readers test it. -/
def JVal.toOption : JVal → Option ℚ
  | JVal.null => none
  | JVal.num q => some q

/-- The externally visible outcome of one HTTP request made by the client. -/
inductive FetchOutcome (α : Type) where
  | exn : FetchOutcome α
  | badStatus : FetchOutcome α
  | badCode : FetchOutcome α
  | ok : α → FetchOutcome α
deriving DecidableEq

/-- Whether the request fully succeeded (status 200, `code == 0`, payload
decoded). -/
def FetchOutcome.isOk {α : Type} : FetchOutcome α → Bool
  | FetchOutcome.ok _ => true
  | _ => false

/-- The outcomes the four endpoints would produce during one cycle: the login
endpoint yields an access token, the station lookup a station id, the
energy-flow and statistics endpoints their `data` objects. -/
structure Env where
  auth : FetchOutcome String
  station : FetchOutcome String
  energy : FetchOutcome Dict
  stats : FetchOutcome Dict
deriving DecidableEq

/-- Python truthiness of an optional string: `None` and `""` are falsy. -/
def truthyStr : Option String → Bool
  | none => false
  | some s => s != ""

/-- The mutable state of `MySigenData`: credentials, cached token, cached
station id, and the two slots of `self.data` (absent until first filled). -/
structure MySigenData where
  username : String
  password : String
  access_token : Option String
  station_id : Option String
  energy_flow : Option Dict
  statistics : Option Dict
deriving DecidableEq

/-- Python `self.data.get("energy_flow", {})`. -/
def MySigenData.flowDict (st : MySigenData) : Dict :=
  st.energy_flow.getD []

/-- Python `self.data.get("statistics", {})`. -/
def MySigenData.statsDict (st : MySigenData) : Dict :=
  st.statistics.getD []

/-- MySigenData.authenticate: POSTs the credential exchange; on full success
caches the returned token and returns True; on any failure (exception,
non-200, non-zero code, malformed body) returns False without mutating
anything. The internal try/except makes it total. -/
def MySigenData.authenticate (st : MySigenData) (env : Env) : MySigenData × Bool :=
  match env.auth with
  | FetchOutcome.ok tok => ({ st with access_token := some tok }, true)
  | _ => (st, false)

/-- Which requests a cycle of `update()` actually issued. -/
structure UpdateTrace where
  asked_auth : Bool
  asked_station : Bool
  asked_energy : Bool
  asked_stats : Bool
deriving DecidableEq

/-- The statistics fetch at the end of the `try` block of `update()`:
on 200 and `code == 0` it overwrites `self.data["statistics"]`; a non-200 or
non-zero code is skipped silently; an exception escapes the block. -/
def MySigenData.statsFetch (st : MySigenData) (env : Env) (tr : UpdateTrace) :
    Except (MySigenData × UpdateTrace) (MySigenData × UpdateTrace) :=
  let tr2 := { tr with asked_stats := true }
  match env.stats with
  | FetchOutcome.exn => Except.error (st, tr2)
  | FetchOutcome.ok d => Except.ok ({ st with statistics := some d }, tr2)
  | _ => Except.ok (st, tr2)

/-- The energy-flow fetch inside the `try` block of `update()`: on 200 and
`code == 0` it overwrites `self.data["energy_flow"]`, then the statistics
fetch runs; a non-200 or non-zero code skips the overwrite but still falls
through to the statistics fetch; an exception escapes the block, so the
statistics fetch never runs. -/
def MySigenData.energyFetch (st : MySigenData) (env : Env) (tr : UpdateTrace) :
    Except (MySigenData × UpdateTrace) (MySigenData × UpdateTrace) :=
  let tr2 := { tr with asked_energy := true }
  match env.energy with
  | FetchOutcome.exn => Except.error (st, tr2)
  | FetchOutcome.ok d => MySigenData.statsFetch { st with energy_flow := some d } env tr2
  | _ => MySigenData.statsFetch st env tr2

/-- The station phase at the top of the `try` block of `update()`: if
`self.station_id` is falsy it issues the station lookup and caches
`str(stationId)` on full success; afterwards, if the station id is still
falsy the cycle returns early, otherwise the energy-flow fetch runs. -/
def MySigenData.stationPhase (st : MySigenData) (env : Env) (tr : UpdateTrace) :
    Except (MySigenData × UpdateTrace) (MySigenData × UpdateTrace) :=
  if truthyStr st.station_id then st.energyFetch env tr
  else
    let tr2 := { tr with asked_station := true }
    match env.station with
    | FetchOutcome.exn => Except.error (st, tr2)
    | FetchOutcome.ok sid =>
        let st2 := { st with station_id := some sid }
        if truthyStr st2.station_id then st2.energyFetch env tr2
        else Except.ok (st2, tr2)
    | _ => Except.ok (st, tr2)

/-- MySigenData.update: if no token is cached and re-authentication fails, the
cycle is a no-op; otherwise the station/energy/statistics phases run inside a
`try` block whose `except Exception` clause (the `Except.error` arm below)
absorbs any exception, so the caller always gets a normal return
(`Except.ok`). The result carries the new state and the trace of requests
issued. -/
def MySigenData.update (st : MySigenData) (env : Env) :
    Except Unit (MySigenData × UpdateTrace) :=
  let tr0 : UpdateTrace := ⟨false, false, false, false⟩
  if truthyStr st.access_token then
    match st.stationPhase env tr0 with
    | Except.ok r => Except.ok r
    | Except.error r => Except.ok r
  else
    match st.authenticate env with
    | (st1, false) => Except.ok (st1, { tr0 with asked_auth := true })
    | (st1, true) =>
        match st1.stationPhase env { tr0 with asked_auth := true } with
        | Except.ok r => Except.ok r
        | Except.error r => Except.ok r

/-- Python `round` to the nearest integer with ties to even (the semantics of
`round(x)` on exact values). -/
def pyRoundInt (q : ℚ) : ℤ :=
  let f := ⌊q⌋
  let r := q - (f : ℚ)
  if r < 1/2 then f
  else if 1/2 < r then f + 1
  else if f % 2 = 0 then f else f + 1

/-- Python `round(x, 2)`. -/
def pyRound2 (q : ℚ) : ℚ :=
  (pyRoundInt (q * 100) : ℚ) / 100

/-- MySigenBatteryPower.native_value: reads `energy_flow.batteryPower`; when
present, scales by 1/1000 and rounds to two decimals iff the absolute value
exceeds 100, else passes it through; when absent, returns None. -/
def MySigenBatteryPower.native_value (st : MySigenData) : Option ℚ :=
  match Dict.getOrNull st.flowDict "batteryPower" with
  | JVal.num power => some (if 100 < |power| then pyRound2 (power / 1000) else power)
  | JVal.null => none

/-- MySigenPVPower.native_value: same rule on `energy_flow.pvPower`. -/
def MySigenPVPower.native_value (st : MySigenData) : Option ℚ :=
  match Dict.getOrNull st.flowDict "pvPower" with
  | JVal.num power => some (if 100 < |power| then pyRound2 (power / 1000) else power)
  | JVal.null => none

/-- MySigenGridPower.native_value: same rule on `energy_flow.buySellPower`. -/
def MySigenGridPower.native_value (st : MySigenData) : Option ℚ :=
  match Dict.getOrNull st.flowDict "buySellPower" with
  | JVal.num power => some (if 100 < |power| then pyRound2 (power / 1000) else power)
  | JVal.null => none

/-- MySigenLoadPower.native_value: same rule on `energy_flow.loadPower`. -/
def MySigenLoadPower.native_value (st : MySigenData) : Option ℚ :=
  match Dict.getOrNull st.flowDict "loadPower" with
  | JVal.num power => some (if 100 < |power| then pyRound2 (power / 1000) else power)
  | JVal.null => none

/-- MySigenBatterySoC.native_value: reads `energy_flow.batterySoc`; a non-None
value is returned and stored in `self._last_valid_value`; a None falls back to
the stored value. The entity state `_last_valid_value` is passed in and the
(possibly updated) state is returned alongside the reading. -/
def MySigenBatterySoC.native_value (last : Option ℚ) (st : MySigenData) :
    Option ℚ × Option ℚ :=
  match Dict.getOrNull st.flowDict "batterySoc" with
  | JVal.num v => (some v, some v)
  | JVal.null => (last, last)

/-- MySigenDayGeneration.native_value: plain passthrough of
`statistics.dayGeneration`. -/
def MySigenDayGeneration.native_value (st : MySigenData) : Option ℚ :=
  (Dict.getOrNull st.statsDict "dayGeneration").toOption

/-- MySigenMonthGeneration.native_value: plain passthrough of
`statistics.monthGeneration`. -/
def MySigenMonthGeneration.native_value (st : MySigenData) : Option ℚ :=
  (Dict.getOrNull st.statsDict "monthGeneration").toOption

/-- MySigenYearGeneration.native_value: plain passthrough of
`statistics.yearGeneration`. -/
def MySigenYearGeneration.native_value (st : MySigenData) : Option ℚ :=
  (Dict.getOrNull st.statsDict "yearGeneration").toOption

/-- MySigenLifetimeGeneration.native_value: plain passthrough of
`statistics.lifetimeGeneration`. -/
def MySigenLifetimeGeneration.native_value (st : MySigenData) : Option ℚ :=
  (Dict.getOrNull st.statsDict "lifetimeGeneration").toOption

/-- Outcome of `setup_platform`: how many sensor entities were created,
whether `add_entities` was called, and the data handler if setup completed. -/
structure SetupOutcome where
  entities_added : Nat
  registered : Bool
  handler : Option MySigenData
deriving DecidableEq

/-- setup_platform: reads `username`/`password` from the config (falsy values
abort), builds the shared `MySigenData`, authenticates (a failure halts setup
before any entity exists), runs one initial update, then creates the nine
sensors and registers them with the host. -/
def setup_platform (username password : Option String) (env : Env) : SetupOutcome :=
  if !truthyStr username || !truthyStr password then ⟨0, false, none⟩
  else
    let dh : MySigenData :=
      { username := username.getD "", password := password.getD "",
        access_token := none, station_id := none,
        energy_flow := none, statistics := none }
    match dh.authenticate env with
    | (_, false) => ⟨0, false, none⟩
    | (dh1, true) =>
        let dh2 :=
          match dh1.update env with
          | Except.ok r => r.1
          | Except.error _ => dh1
        ⟨9, true, some dh2⟩

/-- Observation the charge-level reader makes on a cached state: the value of
`energy_flow.batterySoc` after the `dict.get` chain. -/
def socObs (st : MySigenData) : JVal :=
  Dict.getOrNull st.flowDict "batterySoc"

/-- The sequence of readings the charge-level entity produces over successive
refresh cycles, threading `_last_valid_value` through. -/
def MySigenBatterySoC.run (last : Option ℚ) : List MySigenData → List (Option ℚ)
  | [] => []
  | st :: rest =>
      let r := MySigenBatterySoC.native_value last st
      r.1 :: MySigenBatterySoC.run r.2 rest

/-- The last non-null value in a list of observations, starting from `init`. -/
def lastObserved (init : Option ℚ) : List JVal → Option ℚ
  | [] => init
  | JVal.num q :: rest => lastObserved (some q) rest
  | JVal.null :: rest => lastObserved init rest

/-- Several refresh cycles in a row: fold `update` over a list of per-cycle
environments, collecting the request traces. The `Except.error` arm is dead
code (update never returns it) kept only for totality. -/
def runCycles (st : MySigenData) : List Env → MySigenData × List UpdateTrace
  | [] => (st, [])
  | e :: es =>
      match st.update e with
      | Except.ok (st1, tr) =>
          let r := runCycles st1 es
          (r.1, tr :: r.2)
      | Except.error _ => (st, [])

/-- Python `except Exception` around a block: a raised exception and a normal
return are both absorbed into the same continuation. -/
def caught {α : Type} : Except α α → α
  | Except.ok r => r
  | Except.error r => r

/-- A state with a cached token, a cached station id and a given energy-flow
payload, as fixtures for concrete evaluations. -/
def stWithFlow (d : Dict) : MySigenData :=
  { username := "u", password := "p", access_token := some "t", station_id := some "s",
    energy_flow := some d, statistics := none }

/-- Fixture: payload exercising every branch of the power autoscale rule. -/
def flowMixed : Dict :=
  [("batteryPower", JVal.num (10001/100)), ("pvPower", JVal.num 100),
   ("buySellPower", JVal.num (-2500)), ("loadPower", JVal.null)]

/-- Fixture: state whose energy-flow payload is `flowMixed`. -/
def stMixed : MySigenData := stWithFlow flowMixed

/-- Fixture: state with an empty energy-flow payload. -/
def stSoCAbsent : MySigenData := stWithFlow []

/-- Fixture: state whose energy-flow payload binds batterySoc to null. -/
def stNullSoC : MySigenData := stWithFlow [("batterySoc", JVal.null)]

/-- Fixture: state whose energy-flow payload binds batterySoc to `v`. -/
def stSoC (v : JVal) : MySigenData := stWithFlow [("batterySoc", v)]

/-- Fixture: state whose energy-flow payload reports 0 on every power
field. -/
def stZeros : MySigenData :=
  stWithFlow [("batteryPower", JVal.num 0), ("pvPower", JVal.num 0),
    ("buySellPower", JVal.num 0), ("loadPower", JVal.num 0)]

/-- Fixture: a state with nothing cached at all. -/
def stEmpty : MySigenData :=
  { username := "u", password := "p", access_token := none, station_id := none,
    energy_flow := none, statistics := none }

/-- Fixture: the statistics payload cached before the cycle under test. -/
def dOld : Dict := [("dayGeneration", JVal.num 1)]

/-- Fixture: the statistics payload the statistics endpoint would return. -/
def dNew : Dict := [("dayGeneration", JVal.num 2)]

/-- Fixture: a state with token, station id and both payload keys cached. -/
def stC : MySigenData :=
  { username := "u", password := "p", access_token := some "t", station_id := some "s",
    energy_flow := some [("pvPower", JVal.num 5)], statistics := some dOld }

/-- Fixture: cycle in which the energy-flow request raises while the
statistics endpoint would succeed. -/
def envC : Env :=
  { auth := FetchOutcome.badCode, station := FetchOutcome.badCode,
    energy := FetchOutcome.exn, stats := FetchOutcome.ok dNew }

/-- Fixture: cycle in which the energy-flow request gets a non-200 status
while the statistics endpoint succeeds. -/
def envH : Env :=
  { auth := FetchOutcome.badCode, station := FetchOutcome.badCode,
    energy := FetchOutcome.badStatus, stats := FetchOutcome.ok dNew }

/-- Fixture: cycle in which every endpoint succeeds. -/
def envOkAll : Env :=
  { auth := FetchOutcome.ok "tok2", station := FetchOutcome.ok "sid2",
    energy := FetchOutcome.ok [("pvPower", JVal.num 50)],
    stats := FetchOutcome.ok [("dayGeneration", JVal.num 7)] }

/-- Fixture: cycle in which the login endpoint rejects the credentials while
everything else would succeed. -/
def envAuthFail : Env :=
  { auth := FetchOutcome.badCode, station := FetchOutcome.ok "sid2",
    energy := FetchOutcome.ok [("pvPower", JVal.num 50)],
    stats := FetchOutcome.ok [("dayGeneration", JVal.num 7)] }

/-- Dispatch: a fully successful statistics fetch overwrites the statistics
slot wholesale. -/
lemma statsFetch_ok (st : MySigenData) (env : Env) (tr : UpdateTrace) (d : Dict)
    (h : env.stats = FetchOutcome.ok d) :
    st.statsFetch env tr =
      Except.ok ({ st with statistics := some d }, { tr with asked_stats := true }) := by
  simp [MySigenData.statsFetch, h]

/-- Dispatch: a statistics fetch that raises escapes the try block with the
state unchanged. -/
lemma statsFetch_exn (st : MySigenData) (env : Env) (tr : UpdateTrace)
    (h : env.stats = FetchOutcome.exn) :
    st.statsFetch env tr = Except.error (st, { tr with asked_stats := true }) := by
  simp [MySigenData.statsFetch, h]

/-- Dispatch: a non-200 or non-zero-code statistics fetch is skipped
silently. -/
lemma statsFetch_skip (st : MySigenData) (env : Env) (tr : UpdateTrace)
    (h : env.stats = FetchOutcome.badStatus ∨ env.stats = FetchOutcome.badCode) :
    st.statsFetch env tr = Except.ok (st, { tr with asked_stats := true }) := by
  rcases h with h | h <;> simp [MySigenData.statsFetch, h]

/-- Dispatch: an energy-flow fetch that raises escapes the try block, so the
statistics fetch is never reached. -/
lemma energyFetch_exn (st : MySigenData) (env : Env) (tr : UpdateTrace)
    (h : env.energy = FetchOutcome.exn) :
    st.energyFetch env tr = Except.error (st, { tr with asked_energy := true }) := by
  simp [MySigenData.energyFetch, h]

/-- Dispatch: a fully successful energy-flow fetch overwrites the energy-flow
slot and falls through to the statistics fetch. -/
lemma energyFetch_ok (st : MySigenData) (env : Env) (tr : UpdateTrace) (d : Dict)
    (h : env.energy = FetchOutcome.ok d) :
    st.energyFetch env tr =
      MySigenData.statsFetch { st with energy_flow := some d } env
        { tr with asked_energy := true } := by
  simp [MySigenData.energyFetch, h]

/-- Dispatch: a non-200 or non-zero-code energy-flow fetch is skipped but
still falls through to the statistics fetch. -/
lemma energyFetch_skip (st : MySigenData) (env : Env) (tr : UpdateTrace)
    (h : env.energy = FetchOutcome.badStatus ∨ env.energy = FetchOutcome.badCode) :
    st.energyFetch env tr = st.statsFetch env { tr with asked_energy := true } := by
  rcases h with h | h <;> simp [MySigenData.energyFetch, h]

/-- Dispatch: with a truthy cached station id the station lookup is skipped
entirely. -/
lemma stationPhase_cached (st : MySigenData) (env : Env) (tr : UpdateTrace)
    (h : truthyStr st.station_id = true) :
    st.stationPhase env tr = st.energyFetch env tr := by
  simp [MySigenData.stationPhase, h]

/-- Dispatch: with a truthy cached token, update runs the try block and
catches whatever escapes it. -/
lemma update_auth_cached (st : MySigenData) (env : Env)
    (h : truthyStr st.access_token = true) :
    st.update env =
      Except.ok (caught (st.stationPhase env ⟨false, false, false, false⟩)) := by
  simp only [MySigenData.update, h, if_true]
  cases hsp : st.stationPhase env ⟨false, false, false, false⟩ <;> simp [caught, hsp]

/-- Dispatch: with no cached token and a failing login, update is a no-op
apart from having issued the login request. -/
lemma update_auth_missing_fail (st : MySigenData) (env : Env)
    (h : truthyStr st.access_token = false) (ha : env.auth.isOk = false) :
    st.update env = Except.ok (st, ⟨true, false, false, false⟩) := by
  cases hA : env.auth with
  | ok tok => rw [hA] at ha; simp [FetchOutcome.isOk] at ha
  | exn => simp [MySigenData.update, h, MySigenData.authenticate, hA]
  | badStatus => simp [MySigenData.update, h, MySigenData.authenticate, hA]
  | badCode => simp [MySigenData.update, h, MySigenData.authenticate, hA]

/-- Dispatch: with no cached token and a successful login, update caches the
token and runs the try block on the updated state. -/
lemma update_auth_missing_ok (st : MySigenData) (env : Env) (tok : String)
    (h : truthyStr st.access_token = false) (hA : env.auth = FetchOutcome.ok tok) :
    st.update env =
      Except.ok (caught (({ st with access_token := some tok }).stationPhase env
        ⟨true, false, false, false⟩)) := by
  simp only [MySigenData.update, h, MySigenData.authenticate, hA]
  cases hsp : ({ st with access_token := some tok }).stationPhase env
      ⟨true, false, false, false⟩ <;> simp [caught, hsp]

/-- Frame property of the caught statistics fetch: only the statistics slot
can change, and only to the payload the endpoint returned. -/
lemma caught_statsFetch_frame (st : MySigenData) (env : Env) (tr : UpdateTrace) :
    (caught (st.statsFetch env tr)).1.energy_flow = st.energy_flow ∧
    ((caught (st.statsFetch env tr)).1.statistics = st.statistics ∨
      ∃ d, env.stats = FetchOutcome.ok d ∧
        (caught (st.statsFetch env tr)).1.statistics = some d) ∧
    (caught (st.statsFetch env tr)).1.station_id = st.station_id ∧
    (caught (st.statsFetch env tr)).1.access_token = st.access_token ∧
    (caught (st.statsFetch env tr)).2.asked_station = tr.asked_station := by
  cases hg : env.stats <;> simp [MySigenData.statsFetch, hg, caught]

/-- Frame property of the caught energy-flow fetch (including the statistics
fetch it falls through to): each payload slot changes only to the payload its
own endpoint returned; station id and token are untouched. -/
lemma caught_energyFetch_frame (st : MySigenData) (env : Env) (tr : UpdateTrace) :
    ((caught (st.energyFetch env tr)).1.energy_flow = st.energy_flow ∨
      ∃ d, env.energy = FetchOutcome.ok d ∧
        (caught (st.energyFetch env tr)).1.energy_flow = some d) ∧
    ((caught (st.energyFetch env tr)).1.statistics = st.statistics ∨
      ∃ d, env.stats = FetchOutcome.ok d ∧
        (caught (st.energyFetch env tr)).1.statistics = some d) ∧
    (caught (st.energyFetch env tr)).1.station_id = st.station_id ∧
    (caught (st.energyFetch env tr)).1.access_token = st.access_token ∧
    (caught (st.energyFetch env tr)).2.asked_station = tr.asked_station := by
  cases he : env.energy with
  | exn => simp [MySigenData.energyFetch, he, caught]
  | ok d =>
      have h2 := caught_statsFetch_frame { st with energy_flow := some d } env
        { tr with asked_energy := true }
      rw [energyFetch_ok st env tr d he]
      exact ⟨Or.inr ⟨d, rfl, h2.1⟩, h2.2.1, h2.2.2.1, h2.2.2.2.1, h2.2.2.2.2⟩
  | badStatus =>
      have h2 := caught_statsFetch_frame st env { tr with asked_energy := true }
      rw [energyFetch_skip st env tr (Or.inl he)]
      exact ⟨Or.inl h2.1, h2.2.1, h2.2.2.1, h2.2.2.2.1, h2.2.2.2.2⟩
  | badCode =>
      have h2 := caught_statsFetch_frame st env { tr with asked_energy := true }
      rw [energyFetch_skip st env tr (Or.inr he)]
      exact ⟨Or.inl h2.1, h2.2.1, h2.2.2.1, h2.2.2.2.1, h2.2.2.2.2⟩

/-- Frame property of the caught station phase: each payload slot changes only
to the payload its own endpoint returned, the token is untouched, and when the
station id was already truthy it is preserved and the lookup is not issued. -/
lemma caught_stationPhase_frame (st : MySigenData) (env : Env) (tr : UpdateTrace) :
    ((caught (st.stationPhase env tr)).1.energy_flow = st.energy_flow ∨
      ∃ d, env.energy = FetchOutcome.ok d ∧
        (caught (st.stationPhase env tr)).1.energy_flow = some d) ∧
    ((caught (st.stationPhase env tr)).1.statistics = st.statistics ∨
      ∃ d, env.stats = FetchOutcome.ok d ∧
        (caught (st.stationPhase env tr)).1.statistics = some d) ∧
    (caught (st.stationPhase env tr)).1.access_token = st.access_token ∧
    (truthyStr st.station_id = true →
      (caught (st.stationPhase env tr)).1.station_id = st.station_id ∧
      (caught (st.stationPhase env tr)).2.asked_station = tr.asked_station) := by
  by_cases hs : truthyStr st.station_id = true
  · rw [stationPhase_cached st env tr hs]
    have h3 := caught_energyFetch_frame st env tr
    exact ⟨h3.1, h3.2.1, h3.2.2.2.1, fun _ => ⟨h3.2.2.1, h3.2.2.2.2⟩⟩
  · have hs' : truthyStr st.station_id = false := by
      cases hval : truthyStr st.station_id
      · rfl
      · exact absurd hval hs
    have hvac : ¬ truthyStr st.station_id = true := by rw [hs']; exact Bool.false_ne_true
    simp only [MySigenData.stationPhase, hs', Bool.false_eq_true, if_false]
    cases hst : env.station with
    | exn => simp [caught]
    | badStatus => simp [caught]
    | badCode => simp [caught]
    | ok sid =>
        by_cases h2 : truthyStr (some sid) = true
        · simp only [h2, if_true]
          have h3 := caught_energyFetch_frame { st with station_id := some sid } env
            { tr with asked_station := true }
          exact ⟨h3.1, h3.2.1, h3.2.2.2.1, fun h => h.elim⟩
        · have h2' : truthyStr (some sid) = false := by
            cases hval : truthyStr (some sid)
            · rfl
            · exact absurd hval h2
          simp only [h2', Bool.false_eq_true, if_false]
          simp [caught]

/-- One cycle of update with a truthy cached station id: the lookup is not
issued and the cached id survives, whatever the other endpoints do. -/
lemma update_station_step (st : MySigenData) (env : Env)
    (h : truthyStr st.station_id = true) :
    ∃ st2 tr, st.update env = Except.ok (st2, tr) ∧
      st2.station_id = st.station_id ∧ tr.asked_station = false := by
  by_cases htok : truthyStr st.access_token = true
  · have hf := caught_stationPhase_frame st env ⟨false, false, false, false⟩
    exact ⟨_, _, update_auth_cached st env htok, (hf.2.2.2 h).1, (hf.2.2.2 h).2⟩
  · have htok' : truthyStr st.access_token = false := by
      cases hval : truthyStr st.access_token
      · rfl
      · exact absurd hval htok
    cases hA : env.auth with
    | ok tok =>
        have hf := caught_stationPhase_frame { st with access_token := some tok } env
          ⟨true, false, false, false⟩
        exact ⟨_, _, update_auth_missing_ok st env tok htok' hA,
          (hf.2.2.2 h).1, (hf.2.2.2 h).2⟩
    | exn =>
        exact ⟨st, _, update_auth_missing_fail st env htok' (by rw [hA]; rfl), rfl, rfl⟩
    | badStatus =>
        exact ⟨st, _, update_auth_missing_fail st env htok' (by rw [hA]; rfl), rfl, rfl⟩
    | badCode =>
        exact ⟨st, _, update_auth_missing_fail st env htok' (by rw [hA]; rfl), rfl, rfl⟩

/-- Over any sequence of cycles, a truthy cached station id is never
re-fetched and never changes. -/
lemma runCycles_station (envs : List Env) :
    ∀ st : MySigenData, truthyStr st.station_id = true →
      (runCycles st envs).1.station_id = st.station_id ∧
      ∀ tr ∈ (runCycles st envs).2, tr.asked_station = false := by
  induction envs with
  | nil => intro st _; simp [runCycles]
  | cons e es ih =>
      intro st h
      obtain ⟨st2, tr, hupd, hsid, hask⟩ := update_station_step st e h
      have h2 : truthyStr st2.station_id = true := by rw [hsid]; exact h
      have ihr := ih st2 h2
      simp only [runCycles, hupd]
      refine ⟨by rw [ihr.1, hsid], ?_⟩
      intro tr2 htr2
      rcases List.mem_cons.mp htr2 with h1 | h1
      · rw [h1]; exact hask
      · exact ihr.2 tr2 h1

/-- The i-th reading the charge-level entity produces over a sequence of
refresh cycles is the last non-null batterySoc observation in the prefix up
to and including cycle i (or the initial stored value when there is none). -/
lemma socRun_getElem (init : Option ℚ) (l : List MySigenData) (i : Nat)
    (h : i < l.length) :
    (MySigenBatterySoC.run init l)[i]? =
      some (lastObserved init ((l.map socObs).take (i + 1))) := by
  induction l generalizing init i with
  | nil => simp at h
  | cons st rest ih =>
      cases i with
      | zero =>
          cases hv : Dict.getOrNull st.flowDict "batterySoc" with
          | null =>
              simp [MySigenBatterySoC.run, MySigenBatterySoC.native_value, socObs, hv,
                lastObserved]
          | num q =>
              simp [MySigenBatterySoC.run, MySigenBatterySoC.native_value, socObs, hv,
                lastObserved]
      | succ j =>
          have hj : j < rest.length := by simpa using h
          cases hv : Dict.getOrNull st.flowDict "batterySoc" with
          | null =>
              simp [MySigenBatterySoC.run, MySigenBatterySoC.native_value, socObs, hv,
                lastObserved, ih init j hj]
          | num q =>
              simp [MySigenBatterySoC.run, MySigenBatterySoC.native_value, socObs, hv,
                lastObserved, ih (some q) j hj]

/-- C1: for every power reader (battery, PV, grid, load) and every numeric
value v of its source field in the cached energy-flow payload, the reader
returns round(v/1000, 2) when the absolute value exceeds 100 and v unchanged
when the absolute value is at most 100 (so exactly 100 is not scaled), and it
returns absent when the field is absent or null. -/
theorem power_readers_autoscale (st : MySigenData) (v : ℚ) :
    ((Dict.getOrNull st.flowDict "batteryPower" = JVal.num v →
        (100 < |v| → MySigenBatteryPower.native_value st = some (pyRound2 (v / 1000))) ∧
        (|v| ≤ 100 → MySigenBatteryPower.native_value st = some v)) ∧
      (Dict.getOrNull st.flowDict "batteryPower" = JVal.null →
        MySigenBatteryPower.native_value st = none)) ∧
    ((Dict.getOrNull st.flowDict "pvPower" = JVal.num v →
        (100 < |v| → MySigenPVPower.native_value st = some (pyRound2 (v / 1000))) ∧
        (|v| ≤ 100 → MySigenPVPower.native_value st = some v)) ∧
      (Dict.getOrNull st.flowDict "pvPower" = JVal.null →
        MySigenPVPower.native_value st = none)) ∧
    ((Dict.getOrNull st.flowDict "buySellPower" = JVal.num v →
        (100 < |v| → MySigenGridPower.native_value st = some (pyRound2 (v / 1000))) ∧
        (|v| ≤ 100 → MySigenGridPower.native_value st = some v)) ∧
      (Dict.getOrNull st.flowDict "buySellPower" = JVal.null →
        MySigenGridPower.native_value st = none)) ∧
    ((Dict.getOrNull st.flowDict "loadPower" = JVal.num v →
        (100 < |v| → MySigenLoadPower.native_value st = some (pyRound2 (v / 1000))) ∧
        (|v| ≤ 100 → MySigenLoadPower.native_value st = some v)) ∧
      (Dict.getOrNull st.flowDict "loadPower" = JVal.null →
        MySigenLoadPower.native_value st = none)) := by
  have key : ∀ (r : Option ℚ) (d : Dict) (k : String),
      (r = match Dict.getOrNull d k with
        | JVal.num power => some (if 100 < |power| then pyRound2 (power / 1000) else power)
        | JVal.null => none) →
      ((Dict.getOrNull d k = JVal.num v →
          (100 < |v| → r = some (pyRound2 (v / 1000))) ∧ (|v| ≤ 100 → r = some v)) ∧
        (Dict.getOrNull d k = JVal.null → r = none)) := by
    intro r d k hr
    refine ⟨fun h => ?_, fun h => ?_⟩
    · rw [h] at hr
      refine ⟨fun hv => ?_, fun hv => ?_⟩
      · rw [hr]; exact congrArg some (if_pos hv)
      · rw [hr]; exact congrArg some (if_neg (not_lt.mpr hv))
    · rw [h] at hr; exact hr
  exact ⟨key _ st.flowDict "batteryPower" rfl, key _ st.flowDict "pvPower" rfl,
    key _ st.flowDict "buySellPower" rfl, key _ st.flowDict "loadPower" rfl⟩

/-- Witness for C1 at concrete inputs: 100.01 is scaled, exactly 100 is not
scaled, a large negative value is scaled, and an explicit null is absent. -/
theorem power_readers_autoscale_witness :
    MySigenBatteryPower.native_value stMixed = some (pyRound2 ((10001 / 100) / 1000)) ∧
    MySigenPVPower.native_value stMixed = some 100 ∧
    MySigenGridPower.native_value stMixed = some (pyRound2 ((-2500 : ℚ) / 1000)) ∧
    MySigenLoadPower.native_value stMixed = none :=
  ⟨((power_readers_autoscale stMixed (10001 / 100)).1.1 rfl).1 (by
      rw [abs_of_pos (by norm_num)]; norm_num),
    ((power_readers_autoscale stMixed 100).2.1.1 rfl).2 (by
      rw [abs_of_pos (by norm_num)]),
    ((power_readers_autoscale stMixed (-2500)).2.2.1.1 rfl).1 (by
      rw [abs_of_neg (by norm_num)]; norm_num),
    (power_readers_autoscale stMixed 0).2.2.2.2 rfl⟩

/-- C7: sticky behaviour is exclusive to the charge-level reader: each of the
four power readers and four generation readers is a pure function of the
current cached payload, and whenever its source field is absent or null it
returns absent, with no dependence on earlier cycles. -/
theorem non_soc_readers_not_sticky (st : MySigenData) :
    (Dict.getOrNull st.flowDict "batteryPower" = JVal.null →
      MySigenBatteryPower.native_value st = none) ∧
    (Dict.getOrNull st.flowDict "pvPower" = JVal.null →
      MySigenPVPower.native_value st = none) ∧
    (Dict.getOrNull st.flowDict "buySellPower" = JVal.null →
      MySigenGridPower.native_value st = none) ∧
    (Dict.getOrNull st.flowDict "loadPower" = JVal.null →
      MySigenLoadPower.native_value st = none) ∧
    (Dict.getOrNull st.statsDict "dayGeneration" = JVal.null →
      MySigenDayGeneration.native_value st = none) ∧
    (Dict.getOrNull st.statsDict "monthGeneration" = JVal.null →
      MySigenMonthGeneration.native_value st = none) ∧
    (Dict.getOrNull st.statsDict "yearGeneration" = JVal.null →
      MySigenYearGeneration.native_value st = none) ∧
    (Dict.getOrNull st.statsDict "lifetimeGeneration" = JVal.null →
      MySigenLifetimeGeneration.native_value st = none) := by
  refine ⟨fun h => ?_, fun h => ?_, fun h => ?_, fun h => ?_, fun h => ?_, fun h => ?_,
    fun h => ?_, fun h => ?_⟩ <;>
    simp [MySigenBatteryPower.native_value, MySigenPVPower.native_value,
      MySigenGridPower.native_value, MySigenLoadPower.native_value,
      MySigenDayGeneration.native_value, MySigenMonthGeneration.native_value,
      MySigenYearGeneration.native_value, MySigenLifetimeGeneration.native_value,
      JVal.toOption, h]

/-- Witness for C7: on a state with no cached payloads at all, every
non-sticky reader reports absent. -/
theorem non_soc_readers_not_sticky_witness :
    MySigenBatteryPower.native_value stEmpty = none ∧
    MySigenPVPower.native_value stEmpty = none ∧
    MySigenGridPower.native_value stEmpty = none ∧
    MySigenLoadPower.native_value stEmpty = none ∧
    MySigenDayGeneration.native_value stEmpty = none ∧
    MySigenMonthGeneration.native_value stEmpty = none ∧
    MySigenYearGeneration.native_value stEmpty = none ∧
    MySigenLifetimeGeneration.native_value stEmpty = none :=
  ⟨(non_soc_readers_not_sticky stEmpty).1 rfl,
    (non_soc_readers_not_sticky stEmpty).2.1 rfl,
    (non_soc_readers_not_sticky stEmpty).2.2.1 rfl,
    (non_soc_readers_not_sticky stEmpty).2.2.2.1 rfl,
    (non_soc_readers_not_sticky stEmpty).2.2.2.2.1 rfl,
    (non_soc_readers_not_sticky stEmpty).2.2.2.2.2.1 rfl,
    (non_soc_readers_not_sticky stEmpty).2.2.2.2.2.2.1 rfl,
    (non_soc_readers_not_sticky stEmpty).2.2.2.2.2.2.2 rfl⟩

/-- C9: the charge-level reader cannot distinguish a batterySoc key bound to
null from an absent key: in both cases it falls back to the stored last valid
value and leaves that store unchanged. -/
theorem soc_null_equals_absent (st : MySigenData) (last : Option ℚ)
    (h : st.flowDict.lookup "batterySoc" = some JVal.null ∨
      st.flowDict.lookup "batterySoc" = none) :
    MySigenBatterySoC.native_value last st = (last, last) := by
  have hg : Dict.getOrNull st.flowDict "batterySoc" = JVal.null := by
    unfold Dict.getOrNull
    rcases h with h | h <;> rw [h]
  simp [MySigenBatterySoC.native_value, hg]

/-- Witness for C9: a payload binding batterySoc to an explicit null and a
payload missing the key produce the same sticky fallback. -/
theorem soc_null_equals_absent_witness :
    MySigenBatterySoC.native_value (some 42) stNullSoC = (some 42, some 42) ∧
    MySigenBatterySoC.native_value (some 42) stSoCAbsent = (some 42, some 42) :=
  ⟨soc_null_equals_absent stNullSoC (some 42) (Or.inl rfl),
    soc_null_equals_absent stSoCAbsent (some 42) (Or.inr rfl)⟩

/-- C10: a present power value of exactly 0 is reported as 0, not as absent:
presence is an is-not-None test, not a truthiness test. -/
theorem power_zero_is_reported (st : MySigenData) :
    (Dict.getOrNull st.flowDict "batteryPower" = JVal.num 0 →
      MySigenBatteryPower.native_value st = some 0) ∧
    (Dict.getOrNull st.flowDict "pvPower" = JVal.num 0 →
      MySigenPVPower.native_value st = some 0) ∧
    (Dict.getOrNull st.flowDict "buySellPower" = JVal.num 0 →
      MySigenGridPower.native_value st = some 0) ∧
    (Dict.getOrNull st.flowDict "loadPower" = JVal.num 0 →
      MySigenLoadPower.native_value st = some 0) := by
  refine ⟨fun h => ?_, fun h => ?_, fun h => ?_, fun h => ?_⟩ <;>
    simp [MySigenBatteryPower.native_value, MySigenPVPower.native_value,
      MySigenGridPower.native_value, MySigenLoadPower.native_value, h]

/-- Witness for C10: a payload reporting 0 on every power field yields 0 on
every power reader. -/
theorem power_zero_is_reported_witness :
    MySigenBatteryPower.native_value stZeros = some 0 ∧
    MySigenPVPower.native_value stZeros = some 0 ∧
    MySigenGridPower.native_value stZeros = some 0 ∧
    MySigenLoadPower.native_value stZeros = some 0 :=
  ⟨(power_zero_is_reported stZeros).1 rfl, (power_zero_is_reported stZeros).2.1 rfl,
    (power_zero_is_reported stZeros).2.2.1 rfl, (power_zero_is_reported stZeros).2.2.2 rfl⟩

/-- C3: the charge-level reader is sticky: the observation sequence
[55, absent, null, 60] over four refresh cycles yields the readings
[55, 55, 55, 60], and in general the i-th reading equals the last non-null
batterySoc value observed up to and including cycle i (falling back to the
initially stored value). -/
theorem soc_sticky_sequences :
    MySigenBatterySoC.run none
        [stSoC (JVal.num 55), stSoCAbsent, stSoC JVal.null, stSoC (JVal.num 60)] =
      [some 55, some 55, some 55, some 60] ∧
    ∀ (init : Option ℚ) (l : List MySigenData) (i : Nat), i < l.length →
      (MySigenBatterySoC.run init l)[i]? =
        some (lastObserved init ((l.map socObs).take (i + 1))) :=
  ⟨rfl, socRun_getElem⟩

/-- Witness for C3: the general sticky characterisation evaluated on the
third cycle of the concrete [55, absent, null, 60] sequence. -/
theorem soc_sticky_sequences_witness :
    (MySigenBatterySoC.run none
        [stSoC (JVal.num 55), stSoCAbsent, stSoC JVal.null, stSoC (JVal.num 60)])[2]? =
      some (lastObserved none
        (([stSoC (JVal.num 55), stSoCAbsent, stSoC JVal.null,
            stSoC (JVal.num 60)].map socObs).take 3)) :=
  soc_sticky_sequences.2 none
    [stSoC (JVal.num 55), stSoCAbsent, stSoC JVal.null, stSoC (JVal.num 60)] 2
    (by simp)

/-- C2 counterexample: a cycle in which the energy-flow fetch fails by
raising (timeout or network error) while the statistics endpoint would
succeed does NOT replace the cached statistics payload: the shared exception
handler aborts the cycle before the statistics request is issued, as the
trace shows. -/
theorem energyflow_exception_blocks_statistics :
    envC.energy = FetchOutcome.exn ∧ envC.stats = FetchOutcome.ok dNew ∧
    stC.update envC = Except.ok (stC, ⟨false, false, true, false⟩) ∧
    stC.statistics = some dOld ∧ ¬ stC.statistics = some dNew := by
  refine ⟨rfl, rfl, rfl, rfl, ?_⟩
  intro hEq
  have h1 : dOld = dNew := Option.some.inj hEq
  have h3 : (1 : ℚ) = 2 :=
    JVal.num.inj (congrArg (fun l => (l.getD 0 ("", JVal.null)).2) h1)
  norm_num at h3

/-- C2 amended: the three steps are independently best-effort only across
HTTP-level failures. When the energy-flow fetch fails with a non-200 status
or a non-zero application code and the statistics fetch succeeds, the cached
statistics payload is replaced while the energy-flow payload keeps its prior
value; but when the energy-flow fetch raises, the shared exception handler
aborts the remainder of the cycle, so the statistics request is never issued
and the cached statistics payload also keeps its prior value. -/
theorem statistics_bestEffort_on_http_failures (st : MySigenData) (env : Env) (d : Dict)
    (htok : truthyStr st.access_token = true) (hsid : truthyStr st.station_id = true)
    (hg : env.stats = FetchOutcome.ok d) :
    ((env.energy = FetchOutcome.badStatus ∨ env.energy = FetchOutcome.badCode) →
      st.update env =
          Except.ok ({ st with statistics := some d }, ⟨false, false, true, true⟩) ∧
        ({ st with statistics := some d }).energy_flow = st.energy_flow) ∧
    (env.energy = FetchOutcome.exn →
      st.update env = Except.ok (st, ⟨false, false, true, false⟩)) := by
  constructor
  · intro hbad
    refine ⟨?_, rfl⟩
    rw [update_auth_cached st env htok, stationPhase_cached st env _ hsid,
      energyFetch_skip st env _ hbad, statsFetch_ok st env _ d hg]
    rfl
  · intro hexn
    rw [update_auth_cached st env htok, stationPhase_cached st env _ hsid,
      energyFetch_exn st env _ hexn]
    rfl

/-- Witness for C2 amended: a concrete cycle whose energy-flow fetch gets a
non-200 status while the statistics endpoint succeeds replaces the cached
statistics wholesale and leaves the energy-flow payload alone. -/
theorem statistics_bestEffort_on_http_failures_witness :
    stC.update envH =
      Except.ok ({ stC with statistics := some dNew }, ⟨false, false, true, true⟩) :=
  ((statistics_bestEffort_on_http_failures stC envH dNew rfl rfl rfl).1 (Or.inl rfl)).1

/-- C4: for every starting state and every combination of endpoint outcomes,
update returns normally (the caller never sees an exception), and each cached
payload key either keeps its prior value or was overwritten by a fully
successful fetch of its own endpoint in this cycle. -/
theorem update_never_raises_and_keeps_unfetched_keys (st : MySigenData) (env : Env) :
    ∃ st2 tr, st.update env = Except.ok (st2, tr) ∧
      (st2.energy_flow = st.energy_flow ∨
        ∃ d, env.energy = FetchOutcome.ok d ∧ st2.energy_flow = some d) ∧
      (st2.statistics = st.statistics ∨
        ∃ d, env.stats = FetchOutcome.ok d ∧ st2.statistics = some d) := by
  by_cases htok : truthyStr st.access_token = true
  · have hf := caught_stationPhase_frame st env ⟨false, false, false, false⟩
    exact ⟨_, _, update_auth_cached st env htok, hf.1, hf.2.1⟩
  · have htok' : truthyStr st.access_token = false := by
      cases hval : truthyStr st.access_token
      · rfl
      · exact absurd hval htok
    cases hA : env.auth with
    | ok tok =>
        have hf := caught_stationPhase_frame { st with access_token := some tok } env
          ⟨true, false, false, false⟩
        exact ⟨_, _, update_auth_missing_ok st env tok htok' hA, hf.1, hf.2.1⟩
    | exn =>
        exact ⟨st, _, update_auth_missing_fail st env htok' (by rw [hA]; rfl),
          Or.inl rfl, Or.inl rfl⟩
    | badStatus =>
        exact ⟨st, _, update_auth_missing_fail st env htok' (by rw [hA]; rfl),
          Or.inl rfl, Or.inl rfl⟩
    | badCode =>
        exact ⟨st, _, update_auth_missing_fail st env htok' (by rw [hA]; rfl),
          Or.inl rfl, Or.inl rfl⟩

/-- C5: with no cached access token and a login endpoint that makes
authenticate fail, update returns normally and the state, in particular the
whole cached payload mapping, is exactly the starting one. -/
theorem noauth_failure_is_noop (st : MySigenData) (env : Env)
    (htok : truthyStr st.access_token = false) (ha : env.auth.isOk = false) :
    st.update env = Except.ok (st, ⟨true, false, false, false⟩) ∧
      (st.energy_flow = st.energy_flow ∧ st.statistics = st.statistics) :=
  ⟨update_auth_missing_fail st env htok ha, rfl, rfl⟩

/-- Witness for C5: a state with nothing cached and a login that returns a
non-zero application code while every other endpoint would succeed: the cycle
is a no-op. -/
theorem noauth_failure_is_noop_witness :
    stEmpty.update envAuthFail = Except.ok (stEmpty, ⟨true, false, false, false⟩) :=
  (noauth_failure_is_noop stEmpty envAuthFail rfl rfl).1

/-- C6: once the cached station id is non-empty, no later update cycle ever
issues the station lookup again or changes the cached id, whatever the other
endpoints do in any of the cycles. -/
theorem station_id_cached_never_refetched (st : MySigenData) (envs : List Env)
    (h : truthyStr st.station_id = true) :
    (runCycles st envs).1.station_id = st.station_id ∧
      ∀ tr ∈ (runCycles st envs).2, tr.asked_station = false :=
  runCycles_station envs st h

/-- Witness for C6: two further cycles (one all-successful, one whose
energy-flow fetch raises) on a state with a cached station id never ask the
station endpoint and keep the id. -/
theorem station_id_cached_never_refetched_witness :
    (runCycles stC [envOkAll, envC]).1.station_id = stC.station_id ∧
      ∀ tr ∈ (runCycles stC [envOkAll, envC]).2, tr.asked_station = false :=
  station_id_cached_never_refetched stC [envOkAll, envC] rfl

/-- C8: when the initial authenticate during platform setup fails, setup
halts entirely: no sensor entities are created and add_entities is never
called. -/
theorem setup_halts_on_auth_failure (u p : Option String) (env : Env)
    (hu : truthyStr u = true) (hp : truthyStr p = true) (ha : env.auth.isOk = false) :
    setup_platform u p env = ⟨0, false, none⟩ := by
  cases hA : env.auth with
  | ok tok => rw [hA] at ha; simp [FetchOutcome.isOk] at ha
  | exn => simp [setup_platform, hu, hp, MySigenData.authenticate, hA]
  | badStatus => simp [setup_platform, hu, hp, MySigenData.authenticate, hA]
  | badCode => simp [setup_platform, hu, hp, MySigenData.authenticate, hA]

/-- Witness for C8: with valid-looking config but a login endpoint rejecting
the credentials, setup creates no entities and registers nothing. -/
theorem setup_halts_on_auth_failure_witness :
    setup_platform (some "user") (some "pw") envAuthFail = ⟨0, false, none⟩ :=
  setup_halts_on_auth_failure (some "user") (some "pw") envAuthFail rfl rfl rfl
